import Mathlib

/-!
Shallow embedding of `rhg_pulumi_resources` (Python, Pulumi components).

The repository declares cloud resources through the Pulumi SDK.  Each
component constructor is embedded as a pure Lean function from its
configuration record, the ambient Pulumi settings (stack name, project
name, the `gcp:project` config value) and the *resolved* values of the
Pulumi outputs it consumes, to a record of typed resource requests
together with the ordered trace of the requests it issues.

Conventions:
* Pulumi resource options are `ResourceOpts` (parent / provider /
  depends_on); children referenced in `depends_on` are identified by
  their Pulumi resource names.
* `Output` values consumed by later requests (e.g. `self.cluster.name`)
  are modelled by passing in their resolved value and wiring the same
  value into every field computed from the output.
* Python `None` interpolated into an f-string renders as `"None"`
  (`pyStr`); Python dicts of strings are association lists in insertion
  order.
* `disk_size_gb` is a Python float that is passed through unchanged
  (no arithmetic is performed on it), so it is modelled as `Rat`.
-/

/-- Ambient Pulumi settings visible to the components:
`pulumi.get_stack()`, `pulumi.get_project()` and
`pulumi.Config("gcp").get("project")` (the latter may be unset). -/
structure PulumiEnv where
  stack : String
  project : String
  gcpProject : Option String
deriving DecidableEq, Repr

/-- How Python renders an optional string inside an f-string:
`None` prints as `"None"`. -/
def pyStr : Option String → String
  | some s => s
  | none => "None"

/-- Python's `str(b).lower()` for a bool. -/
def pyBoolStr (b : Bool) : String :=
  if b then "true" else "false"

/-- Source `pulumi_type_name(component, package, index)`:
returns `f"{package}:{index}:{component}"`. -/
def pulumi_type_name (component package index : String) : String :=
  package ++ ":" ++ index ++ ":" ++ component

/-- A scalar that may appear in the `nodecountminmax_*` sequences:
already an int, or a string that `int()` may parse. -/
inductive PyScalar where
  | pint : Int → PyScalar
  | pstr : String → PyScalar
deriving DecidableEq, Repr

/-- Whitespace characters Python strips around an `int()` literal. -/
def isPySpace (c : Char) : Bool :=
  c = ' ' || c = '\t' || c = '\n' || c = '\r' || c = '\x0b' || c = '\x0c'

/-- Drop leading Python whitespace from a character list. -/
def dropLeadingWs : List Char → List Char
  | [] => []
  | c :: cs => if isPySpace c then dropLeadingWs cs else c :: cs

/-- Strip Python whitespace from both ends of a character list. -/
def pyStripWs (cs : List Char) : List Char :=
  ((dropLeadingWs cs).reverse |> dropLeadingWs).reverse

/-- Value of a non-empty all-digit character list, else `none`. -/
def digitsVal : List Char → Option Nat
  | [] => none
  | cs =>
    cs.foldl
      (fun acc c =>
        match acc with
        | none => none
        | some n => if c.isDigit then some (n * 10 + (c.toNat - 48)) else none)
      (some 0)

/-- Python `int(s)` on a string: strip surrounding whitespace, accept an
optional sign followed by digits, `none` (a `ValueError`) otherwise. -/
def parsePyInt (s : String) : Option Int :=
  match pyStripWs s.data with
  | [] => none
  | c :: rest =>
    if c = '+' then (digitsVal rest).map Int.ofNat
    else if c = '-' then (digitsVal rest).map (fun n => -(Int.ofNat n))
    else (digitsVal (c :: rest)).map Int.ofNat

/-- Python `int(x)`: identity on ints, string parsing on strings,
raising — i.e. `none` — on strings that do not denote an integer. -/
def PyScalar.toInt? : PyScalar → Option Int
  | .pint n => some n
  | .pstr s => parsePyInt s

/-- Embedding of `int(l[i])` — the composite partial operation the
constructors apply to the `nodecountminmax_*` sequences: index, then
convert. -/
def pyIntAt (l : List PyScalar) (i : Nat) : Option Int :=
  match l[i]? with
  | some v => v.toInt?
  | none => none

/-- The parent recorded in a child's `ResourceOptions`: every child in
this repository is created with `parent=self`, the component instance. -/
inductive Parent where
  | componentSelf
deriving DecidableEq, Repr

/-- The slice of `pulumi.ResourceOptions` this repository uses:
`parent`, `provider` and `depends_on` (dependencies are identified by
the Pulumi resource names of the referenced children). Providers are
opaque handles, modelled as strings. -/
structure ResourceOpts where
  parent : Option Parent
  provider : Option String
  depends_on : List String
deriving DecidableEq, Repr

/-- Kind tag of a resource request, used in the issuance trace. -/
inductive ReqKind where
  | cluster
  | nodePool
  | gcpAccount
  | k8sServiceAccount
  | iamMember
  | configFile
deriving DecidableEq, Repr

/-! ### `gcp.container.Cluster` request (WorkerPoolCluster) -/

/-- The `recurringWindow` of the cluster's maintenance policy. -/
structure RecurringWindow where
  startTime : String
  endTime : String
  recurrence : String
deriving DecidableEq, Repr

/-- Field values of the single `gcp.container.Cluster` request. -/
structure ClusterArgs where
  name : String
  min_master_version : Option String
  maintenance_recurring_window : RecurringWindow
  resource_labels : List (String × String)
  release_channel : Option (List (String × String))
  initial_node_count : Int
  remove_default_node_pool : Bool
  identityNamespace : String
  istio_disabled : Bool
  opts : ResourceOpts
deriving DecidableEq, Repr

/-- The created cluster: its declared request plus the resolved value
of its `name` output, which later requests consume. -/
structure ClusterRes where
  args : ClusterArgs
  name_out : String
deriving DecidableEq, Repr

/-! ### `gcp.container.NodePool` requests -/

/-- A GKE node taint. -/
structure Taint where
  key : String
  value : String
  effect : String
deriving DecidableEq, Repr

/-- The `node_config` dict of a node pool request.  `taints := none`
models the `taints` key being absent (the core pool); the worker pool
passes an explicit list. -/
structure NodeConfigArgs where
  image_type : Option String
  disk_size_gb : Rat
  diskType : String
  machine_type : String
  labels : List (String × String)
  oauthScopes : List String
  preemptible : Bool
  taints : Option (List Taint)
  nodeMetadata : String
deriving DecidableEq, Repr

/-- The `autoscaling` dict of a node pool request, in the evaluation
order of the source (`maxNodeCount` first). -/
structure Autoscaling where
  maxNodeCount : Int
  minNodeCount : Int
deriving DecidableEq, Repr

/-- Field values of a `gcp.container.NodePool` request. -/
structure NodePoolArgs where
  name : String
  cluster : String
  autoscaling : Autoscaling
  initial_node_count : Int
  autoRepair : Bool
  autoUpgrade : Bool
  node_config : NodeConfigArgs
  opts : ResourceOpts
deriving DecidableEq, Repr

/-! ### WorkerPoolCluster -/

/-- The keyword configuration of `WorkerPoolCluster.__init__`, with the
source's default values. -/
structure WPCConfig where
  resource_name : String
  machinetype_core : String := "n1-standard-4"
  machinetype_worker : String := "n1-highmem-8"
  disk_size_gb_core : Rat := 100
  disk_size_gb_worker : Rat := 100
  disktype_core : String := "pd-standard"
  disktype_worker : String := "pd-standard"
  nodecountminmax_core : List PyScalar := [.pint 0, .pint 5]
  nodecountminmax_worker : List PyScalar := [.pint 0, .pint 10]
  preemptible_core : Bool := false
  preemptible_worker : Bool := true
  image_type : Option String := none
  min_cluster_version : Option String := none
  release_channel : Option (List (String × String)) := none
  oauthscopes : Option (List String) := none
  enable_servicemesh : Bool := false
deriving DecidableEq, Repr

/-- GKE default OAuth scopes substituted when `oauthscopes is None`. -/
def defaultOauthScopes : List String :=
  [ "https://www.googleapis.com/auth/devstorage.read_only"
  , "https://www.googleapis.com/auth/logging.write"
  , "https://www.googleapis.com/auth/monitoring"
  , "https://www.googleapis.com/auth/service.management.readonly"
  , "https://www.googleapis.com/auth/servicecontrol"
  , "https://www.googleapis.com/auth/trace.append" ]

/-- `common_resource_labels` as built in `WorkerPoolCluster.__init__`. -/
def commonResourceLabels (env : PulumiEnv) : List (String × String) :=
  [ ("managed-by", "pulumi")
  , ("env", env.stack)
  , ("pulumi-project", env.project) ]

/-- The constructed `WorkerPoolCluster` component: its three child
resources (exposed as attributes) and the ordered trace of the resource
requests issued. -/
structure WorkerPoolCluster where
  cluster : ClusterRes
  nodepool_core : NodePoolArgs
  nodepool_worker : NodePoolArgs
  trace : List (ReqKind × String)
deriving DecidableEq, Repr

/-- Embeds `WorkerPoolCluster.__init__`.  `clusterNameOut` is the resolved
value of `self.cluster.name`, consumed by both node pools.  Returns
`none` exactly when one of the four `int(nodecountminmax_*[i])`
operations fails, in the source's evaluation order. -/
def WorkerPoolCluster.build (env : PulumiEnv) (cfg : WPCConfig)
    (clusterNameOut : String) : Option WorkerPoolCluster :=
  let oauthscopes := cfg.oauthscopes.getD defaultOauthScopes
  let common := commonResourceLabels env
  let cluster : ClusterRes :=
    { args :=
        { name := cfg.resource_name
        , min_master_version := cfg.min_cluster_version
        , maintenance_recurring_window :=
            { startTime := "2020-01-05T12:00:00Z"
            , endTime := "2020-01-06T12:00:00Z"
            , recurrence := "FREQ=WEEKLY" }
        , resource_labels := common
        , release_channel := cfg.release_channel
        , initial_node_count := 1
        , remove_default_node_pool := true
        , identityNamespace := pyStr env.gcpProject ++ ".svc.id.goog"
        , istio_disabled := !cfg.enable_servicemesh
        , opts := { parent := some .componentSelf, provider := none, depends_on := [] } }
    , name_out := clusterNameOut }
  match pyIntAt cfg.nodecountminmax_core 1, pyIntAt cfg.nodecountminmax_core 0,
        pyIntAt cfg.nodecountminmax_worker 1, pyIntAt cfg.nodecountminmax_worker 0 with
  | some coreMax, some coreMin, some workerMax, some workerMin =>
    let coreLabels :=
      common ++ (if cfg.preemptible_core
                 then [("preemptible", pyBoolStr cfg.preemptible_core)] else [])
    let nodepool_core : NodePoolArgs :=
      { name := "nodepool-core"
      , cluster := cluster.name_out
      , autoscaling := { maxNodeCount := coreMax, minNodeCount := coreMin }
      , initial_node_count := 1
      , autoRepair := true
      , autoUpgrade := true
      , node_config :=
          { image_type := cfg.image_type
          , disk_size_gb := cfg.disk_size_gb_core
          , diskType := cfg.disktype_core
          , machine_type := cfg.machinetype_core
          , labels := coreLabels
          , oauthScopes := oauthscopes
          , preemptible := cfg.preemptible_core
          , taints := none
          , nodeMetadata := "GKE_METADATA_SERVER" }
      , opts := { parent := some .componentSelf, provider := none, depends_on := [] } }
    let workerLabels :=
      (common ++ [("dedicated", "worker")])
        ++ (if cfg.preemptible_worker
            then [("preemptible", pyBoolStr cfg.preemptible_worker)] else [])
    let nodepool_worker : NodePoolArgs :=
      { name := "nodepool-worker"
      , cluster := cluster.name_out
      , autoscaling := { maxNodeCount := workerMax, minNodeCount := workerMin }
      , initial_node_count := 1
      , autoRepair := true
      , autoUpgrade := true
      , node_config :=
          { image_type := cfg.image_type
          , disk_size_gb := cfg.disk_size_gb_worker
          , diskType := cfg.disktype_worker
          , machine_type := cfg.machinetype_worker
          , labels := workerLabels
          , oauthScopes := oauthscopes
          , preemptible := cfg.preemptible_worker
          , taints := some [{ key := "dedicated", value := "worker", effect := "NO_SCHEDULE" }]
          , nodeMetadata := "GKE_METADATA_SERVER" }
      , opts := { parent := some .componentSelf, provider := none, depends_on := [] } }
    some
      { cluster := cluster
      , nodepool_core := nodepool_core
      , nodepool_worker := nodepool_worker
      , trace :=
          [ (ReqKind.cluster, cfg.resource_name)
          , (ReqKind.nodePool, "nodepool-core")
          , (ReqKind.nodePool, "nodepool-worker") ] }
  | _, _, _, _ => none

/-! ### WorkloadIdentity -/

/-- The positional/keyword configuration of `WorkloadIdentity.__init__`. -/
structure WIConfig where
  resource_name : String
  gcp_account_id : String
  k8s_sa_name : String
  k8s_provider : String
  gcp_display_name : Option String := none
deriving DecidableEq, Repr

/-- A resolved Kubernetes object metadata dict, as consumed through
`x.get('namespace')` / `x.get('name')`: either key may be absent. -/
structure PyMeta where
  name : Option String
  ns : Option String
deriving DecidableEq, Repr

/-- Resolved values of the outputs `WorkloadIdentity.__init__` consumes:
the GCP service account's `email` and `project` outputs, and the
Kubernetes ServiceAccount's resolved `metadata` output. -/
structure WIResolved where
  gsaEmail : String
  gsaProject : String
  ksaMeta : PyMeta
deriving DecidableEq, Repr

/-- Field values of the `gcp.serviceaccount.Account` request. -/
structure GcpAccountArgs where
  name : String
  account_id : String
  display_name : String
  description : String
  opts : ResourceOpts
deriving DecidableEq, Repr

/-- The created GCP service account: declared request plus the resolved
values of its `email` and `project` outputs. -/
structure GcpAccountRes where
  args : GcpAccountArgs
  email : String
  project : String
deriving DecidableEq, Repr

/-- Field values of the `pulumi_kubernetes.core.v1.ServiceAccount`
request (its `metadata` dict flattened into name/labels/annotations). -/
structure K8sSAArgs where
  name : String
  metadata_name : String
  metadata_labels : List (String × String)
  metadata_annotations : List (String × String)
  opts : ResourceOpts
deriving DecidableEq, Repr

/-- The created Kubernetes ServiceAccount: declared request plus the
resolved value of its `metadata` output. -/
structure K8sSARes where
  args : K8sSAArgs
  metadata_out : PyMeta
deriving DecidableEq, Repr

/-- Field values of the `gcp.serviceaccount.IAMMember` request. -/
structure IAMMemberArgs where
  name : String
  service_account_id : String
  member : String
  role : String
  opts : ResourceOpts
deriving DecidableEq, Repr

/-- The constructed `WorkloadIdentity` component: its three child
resources (exposed as attributes) and the ordered request trace. -/
structure WorkloadIdentity where
  gcp_serviceaccount : GcpAccountRes
  k8s_serviceaccount : K8sSARes
  sa_binding_iammember : IAMMemberArgs
  trace : List (ReqKind × String)
deriving DecidableEq, Repr

/-- Embeds `WorkloadIdentity.__init__`. -/
def WorkloadIdentity.build (env : PulumiEnv) (cfg : WIConfig)
    (res : WIResolved) : WorkloadIdentity :=
  let gcp_display_name := cfg.gcp_display_name.getD cfg.gcp_account_id
  let gcp_serviceaccount : GcpAccountRes :=
    { args :=
        { name := cfg.resource_name ++ "-gcp-serviceaccount"
        , account_id := cfg.gcp_account_id
        , display_name := gcp_display_name
        , description :=
            "Managed by pulumi project " ++ env.project ++ " (" ++ env.stack ++ ")"
        , opts := { parent := some .componentSelf, provider := none, depends_on := [] } }
    , email := res.gsaEmail
    , project := res.gsaProject }
  let k8s_serviceaccount : K8sSARes :=
    { args :=
        { name := cfg.resource_name ++ "-k8s-serviceaccount"
        , metadata_name := cfg.k8s_sa_name
        , metadata_labels :=
            [ ("env", env.stack)
            , ("pulumi-project", env.project)
            , ("managed-by", "pulumi") ]
        , metadata_annotations :=
            [ ("iam.gke.io/gcp-service-account", gcp_serviceaccount.email) ]
        , opts :=
            { parent := some .componentSelf
            , provider := some cfg.k8s_provider
            , depends_on := [] } }
    , metadata_out := res.ksaMeta }
  let ksa_gsa_binding_member :=
    "serviceAccount:" ++ gcp_serviceaccount.project ++ ".svc.id.goog["
      ++ pyStr k8s_serviceaccount.metadata_out.ns ++ "/"
      ++ pyStr k8s_serviceaccount.metadata_out.name ++ "]"
  let sa_full_id :=
    "projects/" ++ gcp_serviceaccount.project ++ "/serviceAccounts/"
      ++ gcp_serviceaccount.email
  let sa_binding_iammember : IAMMemberArgs :=
    { name := cfg.resource_name ++ "-sa-binding-iammember"
    , service_account_id := sa_full_id
    , member := ksa_gsa_binding_member
    , role := "roles/iam.workloadIdentityUser"
    , opts :=
        { parent := some .componentSelf
        , provider := none
        , depends_on := [gcp_serviceaccount.args.name, k8s_serviceaccount.args.name] } }
  { gcp_serviceaccount := gcp_serviceaccount
  , k8s_serviceaccount := k8s_serviceaccount
  , sa_binding_iammember := sa_binding_iammember
  , trace :=
      [ (ReqKind.gcpAccount, gcp_serviceaccount.args.name)
      , (ReqKind.k8sServiceAccount, k8s_serviceaccount.args.name)
      , (ReqKind.iamMember, sa_binding_iammember.name) ] }

/-! ### ArgoWorkflow (kubernetes/infra.py) -/

/-- Field values of the `pulumi_kubernetes.yaml.ConfigFile` request. -/
structure ConfigFileArgs where
  name : String
  file_id : String
  opts : ResourceOpts
deriving DecidableEq, Repr

/-- The constructed `ArgoWorkflow` component: its single child resource
(exposed as attribute `configfile`) and the request trace. -/
structure ArgoWorkflow where
  configfile : ConfigFileArgs
  trace : List (ReqKind × String)
deriving DecidableEq, Repr

/-- Embeds `ArgoWorkflow.__init__`. -/
def ArgoWorkflow.build (resource_name : String) (k8s_provider : String)
    (argo_version : Option String) : ArgoWorkflow :=
  let argo_version :=
    match argo_version with
    | none => "stable"
    | some v => v
  let configfile : ConfigFileArgs :=
    { name := resource_name ++ "-configfile"
    , file_id :=
        "https://raw.githubusercontent.com/argoproj/argo-workflows/"
          ++ argo_version ++ "/manifests/install.yaml"
    , opts :=
        { parent := some .componentSelf
        , provider := some k8s_provider
        , depends_on := [] } }
  { configfile := configfile
  , trace := [ (ReqKind.configFile, configfile.name) ] }

/-! ### gcp/utils.py: kubectl config -/

/-- The `master_auth` output dict of a cluster, as indexed by
`cluster.master_auth["clusterCaCertificate"]`. -/
structure MasterAuth where
  clusterCaCertificate : String
deriving DecidableEq, Repr

/-- Resolved outputs of a `gcp.container.Cluster` that
`build_kubectl_config` consumes. -/
structure GkeClusterOutputs where
  project : String
  location : String
  name : String
  master_auth : MasterAuth
  endpoint : String
deriving DecidableEq, Repr

/-- Embeds `_kubectl_config_callback(proj, loc, cname, master_auth, endpoint)`:
computes `context = f"gke_{proj}_{loc}_{cname}"` once and splices it
into the f-string template (literal braces written `\x7b`/`\x7d`). -/
def kubectlConfigCallback (proj loc cname master_auth endpoint : String) : String :=
  let context := "gke_" ++ proj ++ "_" ++ loc ++ "_" ++ cname
  "apiVersion: v1\nclusters:\n- cluster:\n    certificate-authority-data: "
    ++ master_auth
    ++ "\n    server: https://" ++ endpoint
    ++ "\n  name: " ++ context
    ++ "\ncontexts:\n- context:\n    cluster: " ++ context
    ++ "\n    user: " ++ context
    ++ "\n  name: " ++ context
    ++ "\ncurrent-context: " ++ context
    ++ "\nkind: Config\npreferences: \x7b\x7d\nusers:\n- name: " ++ context
    ++ "\n  user:\n    auth-provider:\n      config:\n        cmd-args: config config-helper --format=json\n        cmd-path: gcloud\n        expiry-key: \x27\x7b.credential.token_expiry\x7d\x27\n        token-key: \x27\x7b.credential.access_token\x7d\x27\n      name: gcp\n    "

/-- Embeds `build_kubectl_config(cluster)`: applies the callback to the
cluster's resolved `project`, `location`, `name`,
`master_auth["clusterCaCertificate"]` and `endpoint` outputs. -/
def build_kubectl_config (cluster : GkeClusterOutputs) : String :=
  kubectlConfigCallback cluster.project cluster.location cluster.name
    cluster.master_auth.clusterCaCertificate cluster.endpoint

/-! Spec-side structured view of the kubectl config, used to state that
the rendered string names one shared identifier everywhere. -/

/-- The identification fields of the kubectl config: the name of the
single cluster entry, the cluster/user references inside the single
context entry, that context's name, the `current-context` value, the
name of the single user entry, plus the server URL and the
certificate-authority data. -/
structure KubectlSpec where
  clusterEntryName : String
  contextClusterRef : String
  contextUserRef : String
  contextEntryName : String
  currentContext : String
  userEntryName : String
  server : String
  caData : String
deriving DecidableEq, Repr

/-- Renders a `KubectlSpec` in the layout of the source template. -/
def renderKubectl (s : KubectlSpec) : String :=
  "apiVersion: v1\nclusters:\n- cluster:\n    certificate-authority-data: "
    ++ s.caData
    ++ "\n    server: " ++ s.server
    ++ "\n  name: " ++ s.clusterEntryName
    ++ "\ncontexts:\n- context:\n    cluster: " ++ s.contextClusterRef
    ++ "\n    user: " ++ s.contextUserRef
    ++ "\n  name: " ++ s.contextEntryName
    ++ "\ncurrent-context: " ++ s.currentContext
    ++ "\nkind: Config\npreferences: \x7b\x7d\nusers:\n- name: " ++ s.userEntryName
    ++ "\n  user:\n    auth-provider:\n      config:\n        cmd-args: config config-helper --format=json\n        cmd-path: gcloud\n        expiry-key: \x27\x7b.credential.token_expiry\x7d\x27\n        token-key: \x27\x7b.credential.access_token\x7d\x27\n      name: gcp\n    "

/-- The shared identifier `f"gke_{proj}_{loc}_{cname}"`. -/
def gkeContextName (proj loc cname : String) : String :=
  "gke_" ++ proj ++ "_" ++ loc ++ "_" ++ cname

/-! ### Concrete example inputs (used by the witnesses below) -/

/-- An example ambient Pulumi environment. -/
def exEnv : PulumiEnv :=
  { stack := "dev", project := "rhg-infra", gcpProject := some "rhg-gcp" }

/-- A `WorkerPoolCluster` configuration using the source's defaults. -/
def exWPC : WPCConfig := { resource_name := "wpc" }

/-- The component built from `exWPC` (the build succeeds on it). -/
def exBuilt : WorkerPoolCluster :=
  (WorkerPoolCluster.build exEnv exWPC "cluster-name-out").get (by decide)

/-- Evaluation fact: building from `exWPC` yields `exBuilt`. -/
theorem exBuilt_eq :
    WorkerPoolCluster.build exEnv exWPC "cluster-name-out" = some exBuilt := by
  decide

/-- A `WorkerPoolCluster` configuration whose min/max sequences hold a
parseable string and ints, exercising `int()` conversion. -/
def exWPC9 : WPCConfig :=
  { resource_name := "w9"
  , nodecountminmax_core := [.pstr " 1 ", .pint 7]
  , nodecountminmax_worker := [.pint 0, .pstr "10"] }

/-! ### Claim theorems -/

/-- C1: each component constructs a fixed set of child resources and
exposes handles to all of them as attributes: WorkerPoolCluster issues
exactly one Cluster and two NodePools (attributes `cluster`,
`nodepool_core`, `nodepool_worker`), WorkloadIdentity exactly one GCP
service account, one Kubernetes ServiceAccount and one IAMMember
(attributes `gcp_serviceaccount`, `k8s_serviceaccount`,
`sa_binding_iammember`), ArgoWorkflow exactly one ConfigFile (attribute
`configfile`); the kind list of the issued requests is a constant,
independent of the configuration values. -/
theorem components_fixed_children :
    (∀ (env : PulumiEnv) (cfg : WPCConfig) (nm : String) (r : WorkerPoolCluster),
        WorkerPoolCluster.build env cfg nm = some r →
        r.trace = [ (ReqKind.cluster, r.cluster.args.name)
                  , (ReqKind.nodePool, r.nodepool_core.name)
                  , (ReqKind.nodePool, r.nodepool_worker.name) ] ∧
        r.trace.map Prod.fst = [ReqKind.cluster, ReqKind.nodePool, ReqKind.nodePool]) ∧
    (∀ (env : PulumiEnv) (cfg : WIConfig) (res : WIResolved),
        (WorkloadIdentity.build env cfg res).trace =
          [ (ReqKind.gcpAccount, (WorkloadIdentity.build env cfg res).gcp_serviceaccount.args.name)
          , (ReqKind.k8sServiceAccount, (WorkloadIdentity.build env cfg res).k8s_serviceaccount.args.name)
          , (ReqKind.iamMember, (WorkloadIdentity.build env cfg res).sa_binding_iammember.name) ] ∧
        (WorkloadIdentity.build env cfg res).trace.map Prod.fst =
          [ReqKind.gcpAccount, ReqKind.k8sServiceAccount, ReqKind.iamMember]) ∧
    (∀ (rn p : String) (v : Option String),
        (ArgoWorkflow.build rn p v).trace =
          [ (ReqKind.configFile, (ArgoWorkflow.build rn p v).configfile.name) ] ∧
        (ArgoWorkflow.build rn p v).trace.map Prod.fst = [ReqKind.configFile]) := by
  refine ⟨?_, ?_, ?_⟩
  · intro env cfg nm r h
    simp only [WorkerPoolCluster.build] at h
    split at h
    · obtain rfl : _ = r := Option.some.inj h
      exact ⟨rfl, rfl⟩
    · simp at h
  · intro env cfg res
    exact ⟨rfl, rfl⟩
  · intro rn p v
    exact ⟨rfl, rfl⟩

/-- Witness for C1 at a concrete configuration. -/
theorem components_fixed_children_witness :
    WorkerPoolCluster.build exEnv exWPC "cluster-name-out" = some exBuilt ∧
    exBuilt.trace = [ (ReqKind.cluster, exBuilt.cluster.args.name)
                    , (ReqKind.nodePool, exBuilt.nodepool_core.name)
                    , (ReqKind.nodePool, exBuilt.nodepool_worker.name) ] :=
  ⟨exBuilt_eq,
   (components_fixed_children.1 exEnv exWPC "cluster-name-out" exBuilt exBuilt_eq).1⟩

/-- C2: each component issues its requests in a fixed order independent
of the configuration: WorkerPoolCluster issues the Cluster, then
"nodepool-core", then "nodepool-worker"; WorkloadIdentity issues the
GCP service account, then the Kubernetes ServiceAccount, then the
IAMMember binding. -/
theorem request_order_fixed :
    (∀ (env : PulumiEnv) (cfg : WPCConfig) (nm : String) (r : WorkerPoolCluster),
        WorkerPoolCluster.build env cfg nm = some r →
        r.trace = [ (ReqKind.cluster, cfg.resource_name)
                  , (ReqKind.nodePool, "nodepool-core")
                  , (ReqKind.nodePool, "nodepool-worker") ]) ∧
    (∀ (env : PulumiEnv) (cfg : WIConfig) (res : WIResolved),
        (WorkloadIdentity.build env cfg res).trace =
          [ (ReqKind.gcpAccount, cfg.resource_name ++ "-gcp-serviceaccount")
          , (ReqKind.k8sServiceAccount, cfg.resource_name ++ "-k8s-serviceaccount")
          , (ReqKind.iamMember, cfg.resource_name ++ "-sa-binding-iammember") ]) := by
  constructor
  · intro env cfg nm r h
    simp only [WorkerPoolCluster.build] at h
    split at h
    · obtain rfl : _ = r := Option.some.inj h
      rfl
    · simp at h
  · intro env cfg res
    rfl

/-- Witness for C2 at a concrete configuration. -/
theorem request_order_fixed_witness :
    WorkerPoolCluster.build exEnv exWPC "cluster-name-out" = some exBuilt ∧
    exBuilt.trace = [ (ReqKind.cluster, "wpc")
                    , (ReqKind.nodePool, "nodepool-core")
                    , (ReqKind.nodePool, "nodepool-worker") ] :=
  ⟨exBuilt_eq, request_order_fixed.1 exEnv exWPC "cluster-name-out" exBuilt exBuilt_eq⟩

/-- C3: in every WorkloadIdentity, the Kubernetes ServiceAccount is
annotated with "iam.gke.io/gcp-service-account" set to the GCP service
account's email; the IAMMember grants role
"roles/iam.workloadIdentityUser" on service_account_id
"projects/{project}/serviceAccounts/{email}" to member
"serviceAccount:{project}.svc.id.goog[{namespace}/{name}]" with
namespace and name taken from the Kubernetes ServiceAccount's metadata;
and the IAMMember depends on both service accounts. -/
theorem workload_identity_binding_wiring :
    ∀ (env : PulumiEnv) (cfg : WIConfig) (res : WIResolved),
      (WorkloadIdentity.build env cfg res).k8s_serviceaccount.args.metadata_annotations =
        [ ("iam.gke.io/gcp-service-account",
           (WorkloadIdentity.build env cfg res).gcp_serviceaccount.email) ] ∧
      (WorkloadIdentity.build env cfg res).sa_binding_iammember.role =
        "roles/iam.workloadIdentityUser" ∧
      (WorkloadIdentity.build env cfg res).sa_binding_iammember.service_account_id =
        "projects/" ++ (WorkloadIdentity.build env cfg res).gcp_serviceaccount.project
          ++ "/serviceAccounts/"
          ++ (WorkloadIdentity.build env cfg res).gcp_serviceaccount.email ∧
      (WorkloadIdentity.build env cfg res).sa_binding_iammember.member =
        "serviceAccount:" ++ (WorkloadIdentity.build env cfg res).gcp_serviceaccount.project
          ++ ".svc.id.goog["
          ++ pyStr (WorkloadIdentity.build env cfg res).k8s_serviceaccount.metadata_out.ns
          ++ "/"
          ++ pyStr (WorkloadIdentity.build env cfg res).k8s_serviceaccount.metadata_out.name
          ++ "]" ∧
      (WorkloadIdentity.build env cfg res).sa_binding_iammember.opts.depends_on =
        [ (WorkloadIdentity.build env cfg res).gcp_serviceaccount.args.name
        , (WorkloadIdentity.build env cfg res).k8s_serviceaccount.args.name ] := by
  intro env cfg res
  exact ⟨rfl, rfl, rfl, rfl, rfl⟩

/-- C4: determinism as a two-run property — two constructions of the
same component with identical configuration arguments, identical
ambient settings (stack, project, gcp project) and identically resolved
consumed outputs produce identical resource requests in all fields. -/
theorem components_deterministic :
    (∀ (e₁ e₂ : PulumiEnv) (c₁ c₂ : WPCConfig) (n₁ n₂ : String),
        e₁ = e₂ → c₁ = c₂ → n₁ = n₂ →
        WorkerPoolCluster.build e₁ c₁ n₁ = WorkerPoolCluster.build e₂ c₂ n₂) ∧
    (∀ (e₁ e₂ : PulumiEnv) (c₁ c₂ : WIConfig) (r₁ r₂ : WIResolved),
        e₁ = e₂ → c₁ = c₂ → r₁ = r₂ →
        WorkloadIdentity.build e₁ c₁ r₁ = WorkloadIdentity.build e₂ c₂ r₂) ∧
    (∀ (n₁ n₂ p₁ p₂ : String) (v₁ v₂ : Option String),
        n₁ = n₂ → p₁ = p₂ → v₁ = v₂ →
        ArgoWorkflow.build n₁ p₁ v₁ = ArgoWorkflow.build n₂ p₂ v₂) := by
  refine ⟨?_, ?_, ?_⟩
  · intro e₁ e₂ c₁ c₂ n₁ n₂ he hc hn
    rw [he, hc, hn]
  · intro e₁ e₂ c₁ c₂ r₁ r₂ he hc hr
    rw [he, hc, hr]
  · intro n₁ n₂ p₁ p₂ v₁ v₂ hn hp hv
    rw [hn, hp, hv]

/-- Witness for C4 at a concrete configuration. -/
theorem components_deterministic_witness :
    exEnv = exEnv ∧ exWPC = exWPC ∧
    WorkerPoolCluster.build exEnv exWPC "cluster-name-out" =
      WorkerPoolCluster.build exEnv exWPC "cluster-name-out" :=
  ⟨rfl, rfl,
   components_deterministic.1 exEnv exEnv exWPC exWPC
     "cluster-name-out" "cluster-name-out" rfl rfl rfl⟩

/-- C5: every child resource declared by a component is created with
the component instance as its Pulumi parent (`parent=self`), for every
configuration. -/
theorem children_parented_to_component :
    (∀ (env : PulumiEnv) (cfg : WPCConfig) (nm : String) (r : WorkerPoolCluster),
        WorkerPoolCluster.build env cfg nm = some r →
        r.cluster.args.opts.parent = some Parent.componentSelf ∧
        r.nodepool_core.opts.parent = some Parent.componentSelf ∧
        r.nodepool_worker.opts.parent = some Parent.componentSelf) ∧
    (∀ (env : PulumiEnv) (cfg : WIConfig) (res : WIResolved),
        (WorkloadIdentity.build env cfg res).gcp_serviceaccount.args.opts.parent =
          some Parent.componentSelf ∧
        (WorkloadIdentity.build env cfg res).k8s_serviceaccount.args.opts.parent =
          some Parent.componentSelf ∧
        (WorkloadIdentity.build env cfg res).sa_binding_iammember.opts.parent =
          some Parent.componentSelf) ∧
    (∀ (rn p : String) (v : Option String),
        (ArgoWorkflow.build rn p v).configfile.opts.parent =
          some Parent.componentSelf) := by
  refine ⟨?_, ?_, ?_⟩
  · intro env cfg nm r h
    simp only [WorkerPoolCluster.build] at h
    split at h
    · obtain rfl : _ = r := Option.some.inj h
      exact ⟨rfl, rfl, rfl⟩
    · simp at h
  · intro env cfg res
    exact ⟨rfl, rfl, rfl⟩
  · intro rn p v
    rfl

/-- Witness for C5 at a concrete configuration. -/
theorem children_parented_to_component_witness :
    WorkerPoolCluster.build exEnv exWPC "cluster-name-out" = some exBuilt ∧
    (exBuilt.cluster.args.opts.parent = some Parent.componentSelf ∧
     exBuilt.nodepool_core.opts.parent = some Parent.componentSelf ∧
     exBuilt.nodepool_worker.opts.parent = some Parent.componentSelf) :=
  ⟨exBuilt_eq,
   children_parented_to_component.1 exEnv exWPC "cluster-name-out" exBuilt exBuilt_eq⟩

/-- C6: the declared resources are wired together in a fixed way: both
NodePools set their `cluster` field to the created Cluster's name
output, and the IAMMember's fields are computed from the GCP service
account's project and email outputs and the Kubernetes
ServiceAccount's metadata output, with an explicit depends_on on both
service accounts; for every configuration. -/
theorem dependent_wiring_fixed :
    (∀ (env : PulumiEnv) (cfg : WPCConfig) (nm : String) (r : WorkerPoolCluster),
        WorkerPoolCluster.build env cfg nm = some r →
        r.nodepool_core.cluster = r.cluster.name_out ∧
        r.nodepool_worker.cluster = r.cluster.name_out) ∧
    (∀ (env : PulumiEnv) (cfg : WIConfig) (res : WIResolved),
        (WorkloadIdentity.build env cfg res).sa_binding_iammember.service_account_id =
          "projects/" ++ res.gsaProject ++ "/serviceAccounts/" ++ res.gsaEmail ∧
        (WorkloadIdentity.build env cfg res).sa_binding_iammember.member =
          "serviceAccount:" ++ res.gsaProject ++ ".svc.id.goog["
            ++ pyStr res.ksaMeta.ns ++ "/" ++ pyStr res.ksaMeta.name ++ "]" ∧
        (WorkloadIdentity.build env cfg res).sa_binding_iammember.opts.depends_on =
          [ cfg.resource_name ++ "-gcp-serviceaccount"
          , cfg.resource_name ++ "-k8s-serviceaccount" ]) := by
  constructor
  · intro env cfg nm r h
    simp only [WorkerPoolCluster.build] at h
    split at h
    · obtain rfl : _ = r := Option.some.inj h
      exact ⟨rfl, rfl⟩
    · simp at h
  · intro env cfg res
    exact ⟨rfl, rfl, rfl⟩

/-- Witness for C6 at a concrete configuration. -/
theorem dependent_wiring_fixed_witness :
    WorkerPoolCluster.build exEnv exWPC "cluster-name-out" = some exBuilt ∧
    (exBuilt.nodepool_core.cluster = exBuilt.cluster.name_out ∧
     exBuilt.nodepool_worker.cluster = exBuilt.cluster.name_out) :=
  ⟨exBuilt_eq, dependent_wiring_fixed.1 exEnv exWPC "cluster-name-out" exBuilt exBuilt_eq⟩

/-- C7: ArgoWorkflow declares a single ConfigFile whose `file_id` is
the argo-workflows install manifest URL with `argo_version`
substituted, "stable" being used when `argo_version` is None, and the
ConfigFile is created with the supplied Kubernetes provider. -/
theorem argo_configfile_url :
    ∀ (rn p : String) (v : Option String),
      (ArgoWorkflow.build rn p v).trace.map Prod.fst = [ReqKind.configFile] ∧
      (ArgoWorkflow.build rn p v).configfile.file_id =
        "https://raw.githubusercontent.com/argoproj/argo-workflows/"
          ++ v.getD "stable" ++ "/manifests/install.yaml" ∧
      (ArgoWorkflow.build rn p none).configfile.file_id =
        "https://raw.githubusercontent.com/argoproj/argo-workflows/stable/manifests/install.yaml" ∧
      (ArgoWorkflow.build rn p v).configfile.opts.provider = some p := by
  intro rn p v
  cases v <;> exact ⟨rfl, rfl, rfl, rfl⟩

/-- C8: the worker NodePool's node_config carries exactly one taint,
`dedicated=worker` with effect NO_SCHEDULE — no "preemptible" taint is
attached even when `preemptible_worker` is set (contrary to the class
docstring); the worker labels always include `dedicated: worker`, and
include `preemptible: "true"` exactly when `preemptible_worker` is
set. -/
theorem worker_taints_and_labels :
    ∀ (env : PulumiEnv) (cfg : WPCConfig) (nm : String) (r : WorkerPoolCluster),
      WorkerPoolCluster.build env cfg nm = some r →
      r.nodepool_worker.node_config.taints =
        some [{ key := "dedicated", value := "worker", effect := "NO_SCHEDULE" }] ∧
      r.nodepool_worker.node_config.labels.lookup "dedicated" = some "worker" ∧
      (r.nodepool_worker.node_config.labels.lookup "preemptible" = some "true"
        ↔ cfg.preemptible_worker = true) := by
  intro env cfg nm r h
  simp only [WorkerPoolCluster.build] at h
  split at h
  · obtain rfl : _ = r := Option.some.inj h
    refine ⟨rfl, rfl, ?_⟩
    cases hpw : cfg.preemptible_worker <;>
      simp [commonResourceLabels, List.lookup, pyBoolStr]
  · simp at h

/-- Witness for C8 at a concrete configuration (whose
`preemptible_worker` is the default, true). -/
theorem worker_taints_and_labels_witness :
    WorkerPoolCluster.build exEnv exWPC "cluster-name-out" = some exBuilt ∧
    (exBuilt.nodepool_worker.node_config.taints =
       some [{ key := "dedicated", value := "worker", effect := "NO_SCHEDULE" }] ∧
     exBuilt.nodepool_worker.node_config.labels.lookup "dedicated" = some "worker" ∧
     (exBuilt.nodepool_worker.node_config.labels.lookup "preemptible" = some "true"
       ↔ exWPC.preemptible_worker = true)) :=
  ⟨exBuilt_eq, worker_taints_and_labels exEnv exWPC "cluster-name-out" exBuilt exBuilt_eq⟩

/-- C9: WorkerPoolCluster construction is total whenever elements 0 and
1 of both `nodecountminmax` sequences exist and convert with `int()`
(these `int(seq[i])` applications, modelled by `pyIntAt`, are the only
partial operations in the constructor); the autoscaling maxNodeCount
and minNodeCount are the int conversions of elements 1 and 0. -/
theorem wpc_total_on_valid_minmax :
    ∀ (env : PulumiEnv) (cfg : WPCConfig) (nm : String) (cmax cmin wmax wmin : Int),
      pyIntAt cfg.nodecountminmax_core 1 = some cmax →
      pyIntAt cfg.nodecountminmax_core 0 = some cmin →
      pyIntAt cfg.nodecountminmax_worker 1 = some wmax →
      pyIntAt cfg.nodecountminmax_worker 0 = some wmin →
      (WorkerPoolCluster.build env cfg nm).isSome = true ∧
      (WorkerPoolCluster.build env cfg nm).map
          (fun r => (r.nodepool_core.autoscaling.maxNodeCount,
                     r.nodepool_core.autoscaling.minNodeCount,
                     r.nodepool_worker.autoscaling.maxNodeCount,
                     r.nodepool_worker.autoscaling.minNodeCount))
        = some (cmax, cmin, wmax, wmin) := by
  intro env cfg nm cmax cmin wmax wmin h1 h2 h3 h4
  simp only [WorkerPoolCluster.build, h1, h2, h3, h4]
  exact ⟨rfl, rfl⟩

/-- Witness for C9 on sequences holding ints and parseable strings. -/
theorem wpc_total_on_valid_minmax_witness :
    (pyIntAt exWPC9.nodecountminmax_core 1 = some 7 ∧
     pyIntAt exWPC9.nodecountminmax_core 0 = some 1 ∧
     pyIntAt exWPC9.nodecountminmax_worker 1 = some 10 ∧
     pyIntAt exWPC9.nodecountminmax_worker 0 = some 0) ∧
    (WorkerPoolCluster.build exEnv exWPC9 "cn").isSome = true ∧
    (WorkerPoolCluster.build exEnv exWPC9 "cn").map
        (fun r => (r.nodepool_core.autoscaling.maxNodeCount,
                   r.nodepool_core.autoscaling.minNodeCount,
                   r.nodepool_worker.autoscaling.maxNodeCount,
                   r.nodepool_worker.autoscaling.minNodeCount))
      = some (7, 1, 10, 0) := by
  refine ⟨⟨by decide, by decide, by decide, by decide⟩, ?_⟩
  exact wpc_total_on_valid_minmax exEnv exWPC9 "cn" 7 1 10 0
    (by decide) (by decide) (by decide) (by decide)

/-- C10: `build_kubectl_config` renders a kubectl config in which one
identifier `gke_{project}_{location}_{clustername}` occupies the
cluster entry's name, the context's cluster and user references, the
context entry's name, the current-context value and the user entry's
name, the server is `https://{endpoint}`, and the
certificate-authority-data is the cluster's clusterCaCertificate. -/
theorem kubectl_config_single_context :
    ∀ cluster : GkeClusterOutputs,
      build_kubectl_config cluster =
        renderKubectl
          { clusterEntryName := gkeContextName cluster.project cluster.location cluster.name
          , contextClusterRef := gkeContextName cluster.project cluster.location cluster.name
          , contextUserRef := gkeContextName cluster.project cluster.location cluster.name
          , contextEntryName := gkeContextName cluster.project cluster.location cluster.name
          , currentContext := gkeContextName cluster.project cluster.location cluster.name
          , userEntryName := gkeContextName cluster.project cluster.location cluster.name
          , server := "https://" ++ cluster.endpoint
          , caData := cluster.master_auth.clusterCaCertificate } := by
  intro c
  have hsplit : ("\n    server: https://" : String) = "\n    server: " ++ "https://" := rfl
  simp only [build_kubectl_config, kubectlConfigCallback, renderKubectl, gkeContextName,
    hsplit, String.append_assoc]
